import Mathlib

/-!
Verification of the photo-web access-control gateway against its design
specification.

The decision engine lives in `auth/app/authorization.py`
(`AuthorizationRule`, `AuthorizationManager.load_rules`,
`AuthorizationManager.is_authorized`, `AuthorizationManager._delegate_authorization`),
identity resolution in `auth/app/firebase_util.py` (`verify_cookie`,
`verify_user`), the gateway endpoint in `auth/app/main.py` (`authorize`), and
the delegated resource authorizer in `photos/app/api/authorize.py`
(`authorize_access`).

The Python code is embedded shallowly: strings are Lean `String`s and all
string manipulation (strip, split, lower, glob matching) is defined at the
character-list level so that every definition evaluates by kernel reduction;
external collaborators (the Firebase token verifier, the user database, the
SHA-256 digest, the HTTP client used for delegation) are parameters of the
model; Python exceptions escaping a function are `Except.error` values; HTTP
responses are their status codes.
-/

/-! ## Python string primitives (character-level models of `str` methods) -/

/-- Whitespace characters removed by Python `str.strip()` (the ASCII subset,
which is the only one occurring in the gateway's inputs). -/
def pyIsSpace (c : Char) : Bool :=
  c = ' ' || c = '\t' || c = '\n' || c = '\r' || c = '\x0b' || c = '\x0c'

/-- Python `s.strip()`: remove leading and trailing whitespace. -/
def pyStrip (s : String) : String :=
  ⟨((s.data.dropWhile pyIsSpace).reverse.dropWhile pyIsSpace).reverse⟩

/-- Split a character list at every occurrence of `sep`, keeping empty
pieces, as Python `str.split(sep)` does. -/
def splitSepChars (sep : Char) : List Char → List (List Char)
  | [] => [[]]
  | c :: cs =>
    match splitSepChars sep cs with
    | [] => [[]]
    | grp :: rest => if c = sep then [] :: grp :: rest else (c :: grp) :: rest

/-- Python `s.split(sep)` for a one-character separator. -/
def pySplit (sep : Char) (s : String) : List String :=
  (splitSepChars sep s.data).map fun l => ⟨l⟩

/-- ASCII lower-casing of one character, as Python `str.lower()` acts on the
role and action tokens in this code base. -/
def pyCharLower (c : Char) : Char :=
  if 'A' ≤ c && c ≤ 'Z' then Char.ofNat (c.toNat + 32) else c

/-- Python `s.lower()`. -/
def pyLower (s : String) : String := ⟨s.data.map pyCharLower⟩

/-- Leading-segment comparison on character lists. -/
def leadMatch : List Char → List Char → Bool
  | [], _ => true
  | _ :: _, [] => false
  | a :: as, b :: bs => a = b && leadMatch as bs

/-- Python `s.startswith(p)`. -/
def pyStartsWith (s p : String) : Bool := leadMatch p.data s.data

/-- Python `sep.join(parts)`. -/
def joinSep (sep : String) : List String → String
  | [] => ""
  | [x] => x
  | x :: xs => x ++ sep ++ joinSep sep xs

/-- Lexicographic comparison of character lists by code point, as Python
`<=` compares strings. -/
def lexLe : List Char → List Char → Bool
  | [], _ => true
  | _ :: _, [] => false
  | a :: as, b :: bs => if a = b then lexLe as bs else decide (a < b)

/-- Python string `<=` (code-point lexicographic order). -/
def strLe (a b : String) : Bool := lexLe a.data b.data

/-- Insert a string into a list sorted ascending by `strLe`. -/
def insertSorted (x : String) : List String → List String
  | [] => [x]
  | y :: ys => if strLe x y then x :: y :: ys else y :: insertSorted x ys

/-- Python `sorted(...)` on strings: ascending insertion sort by code-point
order. -/
def sortStrings : List String → List String
  | [] => []
  | x :: xs => insertSorted x (sortStrings xs)

/-- Add an element to a duplicate-free list if not yet present, modelling
Python `set.add`. -/
def setInsert (x : String) (l : List String) : List String :=
  if l.contains x then l else x :: l

/-- Collect the distinct elements of a list, modelling Python `set(...)`. -/
def listToSet (l : List String) : List String := l.foldr setInsert []

/-! ## Glob matching (`fnmatch.fnmatch` as used by `AuthorizationRule.matches_uri`)

The rule patterns of this repository use shell-glob semantics over the full
path: `*` matches any run of characters (including `/`), `?` matches exactly
one character, and every other character matches itself. -/

/-- Core glob matcher: `globMatchP pattern name`. -/
def globMatchP : List Char → List Char → Bool
  | [], s => s.isEmpty
  | '*' :: ps, s => s.tails.any (globMatchP ps)
  | '?' :: ps, s => match s with | [] => false | _ :: cs => globMatchP ps cs
  | p :: ps, s => match s with | [] => false | c :: cs => c = p && globMatchP ps cs

/-- Python `fnmatch.fnmatch(name, pattern)` on a POSIX system (where
`os.path.normcase` is the identity), for the wildcard forms `*` and `?`
used by the rule tables of this repository. -/
def fnmatch (name pat : String) : Bool := globMatchP pat.data name.data

/-! ## `auth/app/authorization.py`: rules and the decision engine -/

/-- One authorization rule, after the normalization performed by
`AuthorizationRule.__init__`: `action` is stripped and lower-cased,
`uri_pattern` is stripped, and `role` is the stripped role column or `none`
when the column was absent or blank. -/
structure AuthorizationRule where
  action : String
  uri_pattern : String
  role : Option String
deriving DecidableEq

/-- `AuthorizationRule.__init__(action, uri_pattern, role)`. -/
def mkRule (action uri_pattern : String) (role : Option String) : AuthorizationRule :=
  { action := pyLower (pyStrip action)
    uri_pattern := pyStrip uri_pattern
    role :=
      match role with
      | none => none
      | some r => if pyStrip r = "" then none else some (pyStrip r) }

/-- `AuthorizationRule.matches_uri`: glob-match the full URI against the
rule's pattern. -/
def AuthorizationRule.matches_uri (rule : AuthorizationRule) (uri : String) : Bool :=
  fnmatch uri rule.uri_pattern

/-- `AuthorizationRule.is_delegated`: the role column begins with the
delegation marker `!`. -/
def AuthorizationRule.is_delegated (rule : AuthorizationRule) : Bool :=
  match rule.role with
  | none => false
  | some r => pyStartsWith r "!"

/-- `AuthorizationRule.delegation_url`: strip the marker and prepend the
scheme. -/
def AuthorizationRule.delegation_url (rule : AuthorizationRule) : String :=
  if rule.is_delegated then
    match rule.role with
    | some r => "http://" ++ (⟨r.data.drop 1⟩ : String)
    | none => ""
  else ""

/-- `AuthorizationRule.applies_to_role`: a rule with no role column applies
to everyone, a delegated rule applies to everyone (the delegation target
decides), otherwise the named role must be among the caller's roles. -/
def AuthorizationRule.applies_to_role (rule : AuthorizationRule) (user_roles : List String) : Bool :=
  match rule.role with
  | none => true
  | some r => if rule.is_delegated then true else user_roles.contains r

/-! ## `AuthorizationManager.load_rules` -/

/-- The rule source handed to `load_rules`: the CSV file may be missing
(`FileNotFoundError`), unreadable (any other exception while opening), or a
list of records, each a list of fields as produced by `csv.reader`. -/
inductive RuleSource where
  | missing
  | unreadable
  | rows (rows : List (List String))

/-- One iteration of the `load_rules` loop: empty rows and rows whose first
field begins (after stripping) with `#` are skipped, rows with fewer than two
fields are skipped with a warning, and any other row becomes a rule built
from its first three fields. -/
def parseRow (row : List String) : Option AuthorizationRule :=
  match row with
  | [] => none
  | first :: rest =>
    if pyStartsWith (pyStrip first) "#" then none
    else
      match rest with
      | [] => none
      | second :: rest2 => some (mkRule first second rest2.head?)

/-- `AuthorizationManager.load_rules`: a missing or unreadable source yields
the empty table; otherwise the surviving records become rules in file
order. -/
def load_rules : RuleSource → List AuthorizationRule
  | .missing => []
  | .unreadable => []
  | .rows rs => rs.filterMap parseRow

/-! ## Identity model (`auth/app/models.py`, `auth/app/firebase_util.py`) -/

/-- `models.UserBase`: the identity record. `email = none` is an anonymous
caller; `roles` is the comma-joined role string. -/
structure UserBase where
  name : Option String := none
  email : Option String := none
  roles : String := "public"
  enabled : Bool := true
  picture : String := ""
deriving DecidableEq

/-- The verified claims Firebase returns for a session cookie
(`auth.verify_session_cookie`). -/
structure UserInfo where
  email : Option String := none
  name : Option String := none
  picture : Option String := none
deriving DecidableEq

/-- Outcome of `auth.verify_session_cookie`: either verified claims, or one
of `InvalidIdTokenError` / `ExpiredIdTokenError` / `RevokedIdTokenError`. -/
inductive ProviderResult where
  | ok (info : UserInfo)
  | invalidToken
deriving DecidableEq

/-- One entry of the per-caller session cache written by `verify_user`:
the identity together with the `_cached_at` timestamp. Time is modelled in
minutes, the granularity of the TTL comparison. -/
structure CacheEntry where
  user : UserBase
  cached_at : Nat
deriving DecidableEq

/-- External collaborators of identity resolution: the Firebase verifier,
the user database (`get_user_by_email`), the configured administrator email
(`os.getenv("ADMIN_EMAIL", "")`), and the SHA-256 hex digest used for the
cache key. `create_user` only persists the very record `verify_cookie`
returns, so the database is modelled as a read map. -/
structure AuthEnv where
  provider : String → ProviderResult
  db : String → Option UserBase
  admin_email : String
  hashHex : String → String

/-- `firebase_util.CACHE_VALID_MINUTES`. -/
def cacheValidMinutes : Nat := 60

/-- `firebase_util.verify_cookie`: verify the cookie with Firebase; no email
in the claims means the anonymous `public` identity; a known email loads the
stored user; an unknown email creates (and returns) a user with default
roles `public,protected`; an invalid, expired or revoked token raises
`HTTPException(status_code=500)`, modelled as `Except.error 500`. -/
def verify_cookie (env : AuthEnv) (session_cookie : String) : Except Nat UserBase :=
  match env.provider session_cookie with
  | .invalidToken => .error 500
  | .ok info =>
    match info.email with
    | none => .ok { roles := "public" }
    | some email =>
      match env.db email with
      | some user => .ok user
      | none =>
        .ok { name := info.name
              email := some email
              roles := "public,protected"
              enabled := true
              picture := info.picture.getD "" }

/-- Python `user_info.email == os.getenv("ADMIN_EMAIL", "")`: `None` never
equals a string. -/
def emailIsAdmin (email : Option String) (admin_email : String) : Bool :=
  match email with
  | some e => e == admin_email
  | none => false

/-- Role normalization performed by `verify_user` after a provider round
trip: split the stored role string on commas, strip each token, take the set
of tokens, ensure `public` is present, add `admin` when the resolved email
equals the configured administrator email, and sort ascending. The tokens
are not lower-cased. -/
def normalizeRoleTokens (roles : String) (email : Option String) (admin_email : String) : List String :=
  let toks := (pySplit ',' roles).map pyStrip
  let s := listToSet toks
  let s := setInsert "public" s
  let s := if emailIsAdmin email admin_email then setInsert "admin" s else s
  sortStrings s

/-- Session-store lookup (`cache_key in request.session`). -/
def storeGet (store : List (String × CacheEntry)) (k : String) : Option CacheEntry :=
  (store.find? fun p => p.1 == k).map (·.2)

/-- Session-store assignment (`request.session[cache_key] = ...`). -/
def storeSet (store : List (String × CacheEntry)) (k : String) (v : CacheEntry) :
    List (String × CacheEntry) :=
  (k, v) :: store.filter fun p => !(p.1 == k)

/-- The cache key `"user_info_" + sha256(cookie)[:16]`. -/
def cacheKey (env : AuthEnv) (session_cookie : String) : String :=
  "user_info_" ++ (⟨(env.hashHex session_cookie).data.take 16⟩ : String)

/-- Shared tail of `verify_user` on a cache miss or stale entry: verify the
cookie (letting its exception propagate), normalize the roles, write the
cache entry, and return the identity. The returned `Bool` records that the
identity provider was contacted. -/
def resolveFresh (env : AuthEnv) (now : Nat) (session_cookie : String)
    (session : List (String × CacheEntry)) :
    Except Nat (UserBase × List (String × CacheEntry) × Bool) :=
  match verify_cookie env session_cookie with
  | .error c => .error c
  | .ok user_info =>
    let toks := normalizeRoleTokens user_info.roles user_info.email env.admin_email
    let user' := { user_info with roles := joinSep "," toks }
    let key := cacheKey env session_cookie
    .ok (user', storeSet session key { user := user', cached_at := now }, true)

/-- `firebase_util.verify_user`: no or blank session cookie yields the
anonymous identity; a cached entry younger than the TTL is returned
unchanged without contacting the provider; otherwise the provider is
consulted through `verify_cookie` and the cache refreshed. The result
carries the possibly updated session store and whether the provider was
contacted; a propagating `HTTPException` is the `Except.error` case. -/
def verify_user (env : AuthEnv) (now : Nat) (session_cookie : Option String)
    (session : List (String × CacheEntry)) :
    Except Nat (UserBase × List (String × CacheEntry) × Bool) :=
  match session_cookie with
  | none => .ok ({ roles := "public" }, session, false)
  | some sc =>
    if pyStrip sc = "" then .ok ({ roles := "public" }, session, false)
    else
      match storeGet session (cacheKey env sc) with
      | some entry =>
        if now - entry.cached_at < cacheValidMinutes then
          .ok (entry.user, session, false)
        else resolveFresh env now sc session
      | none => resolveFresh env now sc session

/-! ## Delegation (`AuthorizationManager._delegate_authorization`) -/

/-- Outcome of the `httpx` GET issued to a delegation target: an HTTP
response with a status code, a timeout (`httpx.TimeoutException`), another
transport failure (`httpx.RequestError`), or any other exception raised
inside the `try` block. -/
inductive DelegationOutcome where
  | response (status : Nat)
  | timeout
  | requestError
  | unexpectedError

/-- The FastAPI `Request` as the gateway consumes it: the `session` cookie,
the per-caller session store installed by the session middleware, the
forwarded-URI header, request metadata forwarded to delegation targets, and
the behavior of the network on an outbound GET, as a map from the requested
URL to its outcome. -/
structure PyRequest where
  session_cookie : Option String
  session : List (String × CacheEntry)
  forwarded_uri : Option String
  method : String
  host : String
  user_agent : String
  net : String → DelegationOutcome

/-- `AuthorizationManager._delegate_authorization`. Without a request object
the function logs and returns `False` before any network activity. With one,
it issues `GET {delegation_url}/authorize`; a response is authorized exactly
when its status lies in `[200, 300)`. The `except httpx.TimeoutException:`
handler evaluates the name `e`, which is never bound in that scope, so a
timeout raises `UnboundLocalError` out of the function instead of returning
`False`; the two other handlers return `False` (their logging calls only
mangle the log record, which the logging module absorbs). -/
def delegate_authorization (rule : AuthorizationRule) (_uri : String)
    (_user_roles : List String) (request : Option PyRequest) : Except String Bool :=
  match request with
  | none => .ok false
  | some req =>
    let full_url := rule.delegation_url ++ "/authorize"
    match req.net full_url with
    | .response status => .ok (decide (200 ≤ status) && decide (status < 300))
    | .timeout => .error "UnboundLocalError"
    | .requestError => .ok false
    | .unexpectedError => .ok false

/-- `AuthorizationManager.is_authorized`: scan the table in order; the first
rule whose pattern matches the URI and whose role applies decides: a deny
action denies, an allow action allows directly or hands the decision to the
delegation target; with no such rule the default is deny. An exception
escaping delegation escapes this function too. -/
def is_authorized (rules : List AuthorizationRule) (uri : String)
    (user_roles : List String) (request : Option PyRequest) : Except String Bool :=
  match rules with
  | [] => .ok false
  | rule :: rest =>
    if rule.matches_uri uri && rule.applies_to_role user_roles then
      if rule.action = "allow" then
        if rule.is_delegated then delegate_authorization rule uri user_roles request
        else .ok true
      else .ok false
    else is_authorized rest uri user_roles request

/-! ## The gateway endpoint (`auth/app/main.py`, `authorize`) -/

/-- The `/authorize` handler: resolve the caller through `verify_user`,
split the role string, read `X-Forwarded-Uri` (default `/`), and consult
`is_authorized`; an allow answers 200, a deny raises
`HTTPException(403)`. An `HTTPException` raised below (in particular the 500
from `verify_cookie` on a bad credential) is re-raised unchanged by
`except HTTPException: raise`; any other exception (such as the delegation
timeout `UnboundLocalError`) becomes a 500. The value is the HTTP status
code of the response. -/
def gateway_authorize (env : AuthEnv) (now : Nat) (rules : List AuthorizationRule)
    (req : PyRequest) : Nat :=
  match verify_user env now req.session_cookie req.session with
  | .error code => code
  | .ok (user_info, _, _) =>
    let roles_str := if user_info.roles = "" then "public" else user_info.roles
    let user_roles := ((pySplit ',' roles_str).map pyStrip).filter fun r => r ≠ ""
    let original_uri := req.forwarded_uri.getD "/"
    match is_authorized rules original_uri user_roles (some req) with
    | .error _ => 500
    | .ok true => 200
    | .ok false => 403

/-! ## The photos service authorizer (`photos/app/api/authorize.py`) -/

/-- `models.Realm`: the integer-valued access enum (`PUBLIC = 1`,
`PROTECTED = 2`, `PRIVATE = 3`). -/
inductive Realm where
  | pub
  | prot
  | priv
deriving DecidableEq

/-- Python `item.realm in roles` where `item.realm` is a `Realm` member and
`roles` a list of strings: `Realm` subclasses `int`, and an int-valued enum
member never compares equal to a `str` (`int.__eq__` and `str.__eq__` both
return `NotImplemented`, so `==` falls back to identity), hence the
membership test is `False` for every realm and role string. -/
def pyRealmEqStr (_realm : Realm) (_role : String) : Bool := false

/-- The membership test `item.realm in roles` of the authorize endpoint. -/
def realmInRoles (realm : Realm) (roles : List String) : Bool :=
  roles.any fun role => pyRealmEqStr realm role

/-- The photos in-memory database as the authorize endpoint consults it:
`uuid → realm` for photos and albums (`db.photos[uuid].realm`,
`db.albums[uuid].realm`; no other model field is read by it). -/
structure PhotosDB where
  photos : List (String × Realm)
  albums : List (String × Realm)

/-- Python `dict.get`: `None` when the key is absent. -/
def dictGet (m : List (String × Realm)) (k : String) : Option Realm :=
  (m.find? fun p => p.1 == k).map (·.2)

/-- The component loop of `posixpath.normpath`: skip empty and `.`
components, fold `..` against the accumulated prefix as CPython does. The
accumulator holds the processed components in reverse. -/
def normpathComps (slashes : Nat) (acc : List String) : List String → List String
  | [] => acc.reverse
  | comp :: rest =>
    if comp = "" || comp = "." then normpathComps slashes acc rest
    else if comp != ".." || (slashes == 0 && acc.isEmpty)
        || (match acc with | top :: _ => top == ".." | [] => false) then
      normpathComps slashes (comp :: acc) rest
    else
      match acc with
      | [] => normpathComps slashes [] rest
      | _ :: accTail => normpathComps slashes accTail rest

/-- The leading slashes `posixpath.normpath` preserves: two for exactly two,
one for one or three-plus. -/
def slashString : Nat → String
  | 0 => ""
  | 1 => "/"
  | _ + 2 => "//"

/-- `os.path.normpath` on POSIX. -/
def normpath (path : String) : String :=
  if path = "" then "."
  else
    let slashes : Nat :=
      if pyStartsWith path "/" then
        if pyStartsWith path "//" && !(pyStartsWith path "///") then 2 else 1
      else 0
    let comps := normpathComps slashes [] (pySplit '/' path)
    let out := slashString slashes ++ joinSep "/" comps
    if out = "" then "." else out

/-- `photos/app/api/authorize.py`, `authorize_access` (the copy in
`photos/app/main.py` is identical): a missing or empty `X-Forwarded-Uri`
answers 400; otherwise the path is normalized and split on `/`, `kind` and
`uuid` are taken from components 3 and 4 (an out-of-range index raises
`IndexError`, which the catch-all turns into a 500); for kind `photos` or
`albums` a `dict.get` miss leaves `item = None`, so `item.realm` raises
`AttributeError`, again a 500; a realm contained in the forwarded roles
answers 200; everything else falls through to `HTTPException(403)`.
The value is the HTTP status code of the response. -/
def authorize_access (db : PhotosDB) (fwd_uri fwd_roles : Option String) : Nat :=
  let uri := fwd_uri.getD ""
  if uri = "" then 400
  else
    let roles := (pySplit ',' (fwd_roles.getD "public")).map fun r => pyLower (pyStrip r)
    let segs := pySplit '/' (normpath uri)
    match segs[3]? with
    | none => 500
    | some kind =>
      match segs[4]? with
      | none => 500
      | some uuid =>
        let photosStep : Option Nat :=
          if kind = "photos" then
            match dictGet db.photos uuid with
            | none => some 500
            | some realm => if realmInRoles realm roles then some 200 else none
          else none
        match photosStep with
        | some code => code
        | none =>
          let albumsStep : Option Nat :=
            if kind = "albums" then
              match dictGet db.albums uuid with
              | none => some 500
              | some realm => if realmInRoles realm roles then some 200 else none
            else none
          match albumsStep with
          | some code => code
          | none => 403

/-! ## Specification-side definitions (for stating the claims) -/

/-- The Rule Matcher as the specification words it (section 4.2): scan the
table in order and return the first rule whose pattern glob-matches the
path; the role column is not consulted. -/
def firstUriMatch : List AuthorizationRule → String → Option AuthorizationRule
  | [], _ => none
  | r :: rest, uri => if r.matches_uri uri then some r else firstUriMatch rest uri

/-- The first rule the `is_authorized` loop accepts: the first rule whose
pattern matches the URI and whose role applies to the caller. -/
def firstApplicableMatch : List AuthorizationRule → String → List String → Option AuthorizationRule
  | [], _, _ => none
  | r :: rest, uri, roles =>
    if r.matches_uri uri && r.applies_to_role roles then some r
    else firstApplicableMatch rest uri roles

/-- A record that `load_rules` turns into a rule: at least two fields, first
field not a comment marker. -/
def wellFormedRow (row : List String) : Bool :=
  match row with
  | first :: _ :: _ => !(pyStartsWith (pyStrip first) "#")
  | _ => false

/-! ## Helper lemmas about the decision loop -/

/-! ## Concrete rule tables, requests and environments used by the claims -/

/-- Two allow rules for `/x` with different role targets. -/
def tableTwoAllows : List AuthorizationRule :=
  [mkRule "allow" "/x" (some "a"), mkRule "allow" "/x" (some "b")]

/-- Scenario A of the specification: a narrow deny before a broad allow. -/
def tableScenarioA : List AuthorizationRule :=
  [mkRule "deny" "/auth/authorize" none, mkRule "allow" "/auth/*" (some "public")]

/-- A deny rule carrying a role, before an unconditional allow. -/
def tableRoledDeny : List AuthorizationRule :=
  [mkRule "deny" "/x" (some "a"), mkRule "allow" "/x" none]

/-- A request whose outbound delegation call times out. -/
def reqTimeout : PyRequest :=
  { session_cookie := none, session := [], forwarded_uri := some "/photos/api/albums/a1"
    method := "GET", host := "example.com", user_agent := "ua", net := fun _ => .timeout }

/-- A request whose outbound delegation call answers with the given status. -/
def reqStatus (status : Nat) : PyRequest :=
  { session_cookie := none, session := [], forwarded_uri := some "/photos/api/albums/a1"
    method := "GET", host := "example.com", user_agent := "ua"
    net := fun _ => .response status }

/-- A request whose outbound delegation call fails with a transport error. -/
def reqNetError : PyRequest :=
  { session_cookie := none, session := [], forwarded_uri := some "/photos/api/albums/a1"
    method := "GET", host := "example.com", user_agent := "ua"
    net := fun _ => .requestError }

/-- A request whose outbound delegation call raises an unexpected exception. -/
def reqUnexpected : PyRequest :=
  { session_cookie := none, session := [], forwarded_uri := some "/photos/api/albums/a1"
    method := "GET", host := "example.com", user_agent := "ua"
    net := fun _ => .unexpectedError }

/-- The delegated albums rule of scenario C. -/
def ruleAlbums : AuthorizationRule := mkRule "allow" "/photos/api/albums/*" (some "!photos-svc:8000")

/-- An environment whose identity provider rejects every credential as
invalid, expired or revoked. -/
def envInvalidToken : AuthEnv :=
  { provider := fun _ => .invalidToken, db := fun _ => none
    admin_email := "", hashHex := fun _ => "0123456789abcdef" }

/-- A gateway request carrying an expired session cookie. -/
def reqExpiredCookie : PyRequest :=
  { session_cookie := some "expired-session-token", session := []
    forwarded_uri := some "/", method := "GET", host := "example.com"
    user_agent := "ua", net := fun _ => .requestError }

/-- The photos database used by claim C4: one public photo, one protected
album. -/
def dbPhotosC4 : PhotosDB := { photos := [("p1", .pub)], albums := [("a1", .prot)] }

/-- An environment whose user database stores a mixed-case role string. -/
def envMixedCase : AuthEnv :=
  { provider := fun sc => if sc = "tok" then .ok { email := some "u@x.com", name := some "U" } else .invalidToken
    db := fun e =>
      if e = "u@x.com" then
        some { name := some "U", email := some "u@x.com", roles := "public,Protected" }
      else none
    admin_email := ""
    hashHex := fun _ => "deadbeefdeadbeefdeadbeef" }

/-- An environment whose administrator email matches the resolved user. -/
def envAdminMatch : AuthEnv :=
  { provider := fun _ => .ok { email := some "boss@x.com" }
    db := fun _ => none
    admin_email := "boss@x.com"
    hashHex := fun _ => "feedface" }

/-- The identity `verify_cookie` creates for the administrator credential in
`envAdminMatch` (a first login: default roles `public,protected`). -/
def adminUser0 : UserBase :=
  { name := none, email := some "boss@x.com", roles := "public,protected"
    enabled := true, picture := "" }

/-- The identity the first call of the claim C9 witness caches. -/
def cachedMixedUser : UserBase :=
  { name := some "U", email := some "u@x.com", roles := "Protected,public"
    enabled := true, picture := "" }

/-- The session store after the first call of the claim C9 witness. -/
def cachedMixedStore : List (String × CacheEntry) :=
  [("user_info_deadbeefdeadbeef", { user := cachedMixedUser, cached_at := 10 })]

/-- Unfolding `is_authorized` when the head rule fires. -/
theorem is_authorized_cons_pos {hd : AuthorizationRule} {tl : List AuthorizationRule}
    {uri : String} {roles : List String} {req : Option PyRequest}
    (h : (hd.matches_uri uri && hd.applies_to_role roles) = true) :
    is_authorized (hd :: tl) uri roles req =
      if hd.action = "allow" then
        (if hd.is_delegated then delegate_authorization hd uri roles req else .ok true)
      else .ok false := by
  simp [is_authorized, h]

/-- Unfolding `is_authorized` when the head rule does not fire. -/
theorem is_authorized_cons_neg {hd : AuthorizationRule} {tl : List AuthorizationRule}
    {uri : String} {roles : List String} {req : Option PyRequest}
    (h : (hd.matches_uri uri && hd.applies_to_role roles) = false) :
    is_authorized (hd :: tl) uri roles req = is_authorized tl uri roles req := by
  simp [is_authorized, h]

/-- The loop of `is_authorized` is decided by the first rule that matches
the URI and whose role applies; rules after it are not consulted. -/
theorem is_authorized_eq_of_firstApplicable {rules : List AuthorizationRule}
    {uri : String} {roles : List String} {r : AuthorizationRule}
    (req : Option PyRequest)
    (hfind : firstApplicableMatch rules uri roles = some r) :
    is_authorized rules uri roles req =
      if r.action = "allow" then
        (if r.is_delegated then delegate_authorization r uri roles req else .ok true)
      else .ok false := by
  induction rules with
  | nil => simp [firstApplicableMatch] at hfind
  | cons hd tl ih =>
    by_cases h : (hd.matches_uri uri && hd.applies_to_role roles) = true
    · have hr : r = hd := by
        rw [firstApplicableMatch, if_pos h] at hfind
        exact (Option.some_inj.mp hfind).symm
      rw [is_authorized_cons_pos h, hr]
    · have h' : (hd.matches_uri uri && hd.applies_to_role roles) = false := by
        simpa using h
      rw [firstApplicableMatch, if_neg (by simp [h'])] at hfind
      rw [is_authorized_cons_neg h']
      exact ih hfind

/-- The predicate holds at the rule `firstApplicableMatch` returns. -/
theorem firstApplicable_pred {rules : List AuthorizationRule} {uri : String}
    {roles : List String} {r : AuthorizationRule}
    (hfind : firstApplicableMatch rules uri roles = some r) :
    r.matches_uri uri = true ∧ r.applies_to_role roles = true := by
  induction rules with
  | nil => simp [firstApplicableMatch] at hfind
  | cons hd tl ih =>
    by_cases h : (hd.matches_uri uri && hd.applies_to_role roles) = true
    · rw [firstApplicableMatch, if_pos h] at hfind
      rw [Bool.and_eq_true] at h
      obtain rfl : hd = r := Option.some_inj.mp hfind
      exact h
    · rw [firstApplicableMatch, if_neg h] at hfind
      exact ih hfind

/-- A rule naming a plain (non-delegated) role applies only when the caller
holds that role. -/
theorem applies_to_role_mem {r : AuthorizationRule} {roles : List String} {ρ : String}
    (hnd : r.is_delegated = false) (hρ : r.role = some ρ)
    (happ : r.applies_to_role roles = true) : ρ ∈ roles := by
  rw [AuthorizationRule.applies_to_role, hρ, hnd] at happ
  simpa using happ

/-! ## Concrete tables used by the claims -/

/-- Claim C1, counterexample: with rules `allow /x a` then `allow /x b` and
caller roles `{b}`, the first rule whose pattern matches `/x` is the
non-delegated `allow /x a`, its role `a` is not among the caller's roles —
so the claim demands Denied — yet `is_authorized` skips that rule (its role
does not apply) and the second rule allows the request. -/
theorem claim1_first_matching_rule_cex :
    firstUriMatch tableTwoAllows "/x" = some (mkRule "allow" "/x" (some "a"))
    ∧ (mkRule "allow" "/x" (some "a")).action = "allow"
    ∧ (mkRule "allow" "/x" (some "a")).is_delegated = false
    ∧ (mkRule "allow" "/x" (some "a")).role = some "a"
    ∧ ("a" ∈ ["b"] ↔ False)
    ∧ is_authorized tableTwoAllows "/x" ["b"] none = .ok true := by
  refine ⟨by rfl, by rfl, by rfl, by rfl, by simp, by rfl⟩

/-- Claim C1 (amended): the decision is determined by the first rule in file
order whose pattern glob-matches the path AND whose role applies to the
caller (no role column, delegated, or a role the caller holds); when that
rule is non-delegated the result is Allowed exactly when its action is
`allow`, and if it names a specific role then that role is a member of the
caller's role set; rules after it are never consulted. -/
theorem claim1_first_applicable_rule_decides
    (rules : List AuthorizationRule) (uri : String) (roles : List String)
    (req : Option PyRequest) (r : AuthorizationRule)
    (hfind : firstApplicableMatch rules uri roles = some r)
    (hnd : r.is_delegated = false) :
    is_authorized rules uri roles req = .ok (r.action == "allow")
    ∧ (∀ ρ, r.role = some ρ → ρ ∈ roles) := by
  constructor
  · rw [is_authorized_eq_of_firstApplicable req hfind, hnd]
    by_cases ha : r.action = "allow"
    · simp [ha]
    · simp [ha, Ne.symm ha]
  · intro ρ hρ
    exact applies_to_role_mem hnd hρ (firstApplicable_pred hfind).2

/-- Claim C1, witness: the amended statement evaluated on a one-rule table. -/
theorem claim1_first_applicable_rule_decides_witness :
    is_authorized [mkRule "allow" "/w" (some "public")] "/w" ["public"] none
        = .ok ((mkRule "allow" "/w" (some "public")).action == "allow")
    ∧ (∀ ρ, (mkRule "allow" "/w" (some "public")).role = some ρ → ρ ∈ ["public"]) :=
  claim1_first_applicable_rule_decides _ _ _ none _ (by rfl) (by rfl)

/-- Claim C5: if no rule's pattern glob-matches the path, `is_authorized`
denies; in particular the empty table — the result of a missing rule
source — denies every request. -/
theorem claim5_default_deny
    (rules : List AuthorizationRule) (uri : String) (roles : List String)
    (req : Option PyRequest)
    (h : ∀ r ∈ rules, r.matches_uri uri = false) :
    is_authorized rules uri roles req = .ok false := by
  induction rules with
  | nil => rfl
  | cons hd tl ih =>
    have hhd : hd.matches_uri uri = false := h hd (List.mem_cons_self hd tl)
    rw [is_authorized_cons_neg (by simp [hhd])]
    exact ih fun r hr => h r (List.mem_cons_of_mem hd hr)

/-- Claim C5, witness: over the empty table (scenario D, the table loaded
when the rule source is absent) every request is denied, even for an
administrator. -/
theorem claim5_default_deny_witness :
    is_authorized (load_rules .missing) "/photos/api/albums/x" ["admin"] none = .ok false :=
  claim5_default_deny _ _ _ none (by simp [load_rules])

/-- Claim C6, counterexample: in `tableRoledDeny` the deny rule for pattern
`/x` precedes an allow rule whose pattern also matches `/x`, yet a caller
with roles `{b}` is Allowed: the deny rule names role `a`, which the caller
does not hold, so the `is_authorized` scan skips it. -/
theorem claim6_order_precedence_cex :
    (mkRule "deny" "/x" (some "a")).action = "deny"
    ∧ (mkRule "deny" "/x" (some "a")).matches_uri "/x" = true
    ∧ (mkRule "allow" "/x" none).matches_uri "/x" = true
    ∧ is_authorized tableRoledDeny "/x" ["b"] none = .ok true := by
  refine ⟨by rfl, by rfl, by rfl, by rfl⟩

/-- Claim C6 (amended): whenever the first rule whose pattern matches the
path and whose role applies to the caller is not an allow rule, the request
is Denied regardless of the caller's remaining roles; concretely, for
scenario A — a narrow role-free deny before a broad allow — path
`/auth/authorize` is Denied even with roles `{admin}`, while `/auth/login`
with roles `{public}` is Allowed. -/
theorem claim6_order_precedence :
    (∀ (rules : List AuthorizationRule) (uri : String) (roles : List String)
      (req : Option PyRequest) (r : AuthorizationRule),
      firstApplicableMatch rules uri roles = some r → r.action ≠ "allow" →
      is_authorized rules uri roles req = .ok false)
    ∧ is_authorized tableScenarioA "/auth/authorize" ["admin"] none = .ok false
    ∧ is_authorized tableScenarioA "/auth/login" ["public"] none = .ok true := by
  refine ⟨fun rules uri roles req r hfind ha => ?_, by rfl, by rfl⟩
  rw [is_authorized_eq_of_firstApplicable req hfind, if_neg ha]

/-- Claim C6, witness: the general part of the amended claim evaluated on a
one-rule table. -/
theorem claim6_order_precedence_witness :
    is_authorized [mkRule "deny" "/w" none] "/w" ["admin"] none = .ok false :=
  claim6_order_precedence.1 _ _ _ none (mkRule "deny" "/w" none) (by rfl) (by decide)

/-- Claim C10: when the first applicable rule is a delegated allow rule but
no request object was supplied to the decision, `is_authorized` returns a
plain deny — `_delegate_authorization` returns `False` on its `not request`
guard, before any network context even exists to contact the target with. -/
theorem claim10_delegation_without_request
    (rules : List AuthorizationRule) (uri : String) (roles : List String)
    (r : AuthorizationRule)
    (hfind : firstApplicableMatch rules uri roles = some r)
    (ha : r.action = "allow") (hd : r.is_delegated = true) :
    is_authorized rules uri roles none = .ok false := by
  rw [is_authorized_eq_of_firstApplicable none hfind, if_pos ha, hd]
  rfl

/-- Claim C10, witness: a delegated album rule with no request object. -/
theorem claim10_delegation_without_request_witness :
    is_authorized [mkRule "allow" "/photos/api/albums/*" (some "!photos:8000")]
        "/photos/api/albums/a1" ["public"] none = .ok false :=
  claim10_delegation_without_request _ _ _
    (mkRule "allow" "/photos/api/albums/*" (some "!photos:8000"))
    (by rfl) (by rfl) (by rfl)

/-! ## Concrete environments used by the remaining claims -/

/-- Claim C2: the 2xx criterion and the collapse of connection and
unexpected errors to deny hold, but the claim's "never raises" fails on the
timeout path: the `except httpx.TimeoutException:` handler passes the name
`e` to its logging call without ever binding it, so a timeout raises
`UnboundLocalError` out of `_delegate_authorization` to its caller instead
of returning `False`. -/
theorem claim2_delegation_failure_modes :
    delegate_authorization ruleAlbums "/photos/api/albums/a1" ["public"] (some (reqStatus 200)) = .ok true
    ∧ delegate_authorization ruleAlbums "/photos/api/albums/a1" ["public"] (some (reqStatus 299)) = .ok true
    ∧ delegate_authorization ruleAlbums "/photos/api/albums/a1" ["public"] (some (reqStatus 403)) = .ok false
    ∧ delegate_authorization ruleAlbums "/photos/api/albums/a1" ["public"] (some reqNetError) = .ok false
    ∧ delegate_authorization ruleAlbums "/photos/api/albums/a1" ["public"] (some reqUnexpected) = .ok false
    ∧ delegate_authorization ruleAlbums "/photos/api/albums/a1" ["public"] (some reqTimeout)
        = .error "UnboundLocalError" := by
  refine ⟨by rfl, by rfl, by rfl, by rfl, by rfl, by rfl⟩

/-- Claim C3: a request carrying an invalid (expired/revoked/malformed)
session credential is answered with HTTP 500 by the gateway's `/authorize`
handler — `verify_cookie` raises `HTTPException(500, "Invalid Token")` and
the handler's `except HTTPException: raise` re-raises it — even under a rule
table that allows every path to everyone; the claimed degradation to the
anonymous identity does not happen. -/
theorem claim3_invalid_credential_500 :
    gateway_authorize envInvalidToken 0 [mkRule "allow" "*" none] reqExpiredCookie = 500
    ∧ gateway_authorize envInvalidToken 0 [] reqExpiredCookie = 500 := by
  refine ⟨by rfl, by rfl⟩

/-- Claim C4: the Resource Realm Authorizer does not implement the claimed
status contract. A known public photo requested with role `public` is
answered 403, not 200 (the realm is an int-valued enum member and never
compares equal to a role string); an unknown resource id is answered 500,
not 404 (`dict.get` yields `None` and `None.realm` raises); a path not
matching the template is answered 500, not 400 (the component access raises
`IndexError`); only the missing/empty `X-Forwarded-Uri` case answers 400. -/
theorem claim4_realm_authorizer_status_codes :
    authorize_access dbPhotosC4 (some "/photos/api/photos/p1") (some "public") = 403
    ∧ authorize_access dbPhotosC4 (some "/photos/api/albums/a1") (some "protected,public") = 403
    ∧ authorize_access dbPhotosC4 (some "/photos/api/photos/zzz") (some "public") = 500
    ∧ authorize_access dbPhotosC4 (some "/photos/api/albums/zzz") (some "public") = 500
    ∧ authorize_access dbPhotosC4 (some "/unrecognized") (some "public") = 500
    ∧ authorize_access dbPhotosC4 none (some "public") = 400
    ∧ authorize_access dbPhotosC4 (some "") (some "public") = 400 := by
  refine ⟨by rfl, by rfl, by rfl, by rfl, by rfl, by rfl, by rfl⟩

/-! ## Helper lemmas about rule loading -/

/-- A well-formed record parses to a rule. -/
theorem parseRow_some_of_wellFormed {row : List String} (h : wellFormedRow row = true) :
    ∃ rule, parseRow row = some rule := by
  cases row with
  | nil => simp [wellFormedRow] at h
  | cons first rest =>
    cases rest with
    | nil => simp [wellFormedRow] at h
    | cons second rest2 =>
      have hc : pyStartsWith (pyStrip first) "#" = false := by
        simpa [wellFormedRow] using h
      exact ⟨mkRule first second rest2.head?, by simp [parseRow, hc]⟩

/-- A record with fewer than two fields is skipped. -/
theorem parseRow_none_of_short {row : List String} (h : row.length < 2) :
    parseRow row = none := by
  cases row with
  | nil => rfl
  | cons first rest =>
    cases rest with
    | nil => simp [parseRow]
    | cons second rest2 => simp at h; omega

/-- Over well-formed records, loading preserves the record count. -/
theorem filterMap_parseRow_length {l : List (List String)}
    (h : ∀ r ∈ l, wellFormedRow r = true) :
    (l.filterMap parseRow).length = l.length := by
  induction l with
  | nil => rfl
  | cons a l ih =>
    obtain ⟨rule, hr⟩ := parseRow_some_of_wellFormed (h a (List.mem_cons_self a l))
    rw [List.filterMap_cons_some hr, List.length_cons, List.length_cons,
      ih fun r hr' => h r (List.mem_cons_of_mem a hr')]

/-- Claim C7: a source of well-formed records with one malformed record
(fewer than two fields) in the middle loads to exactly the rules of the
well-formed records, in file order, so the table has exactly N entries; a
missing or unreadable source loads to the empty table instead of raising. -/
theorem claim7_lenient_load (pre post : List (List String)) (bad : List String)
    (hbad : bad.length < 2)
    (hpre : ∀ r ∈ pre, wellFormedRow r = true)
    (hpost : ∀ r ∈ post, wellFormedRow r = true) :
    load_rules (.rows (pre ++ bad :: post)) = load_rules (.rows pre) ++ load_rules (.rows post)
    ∧ (load_rules (.rows (pre ++ bad :: post))).length = pre.length + post.length
    ∧ load_rules .missing = [] ∧ load_rules .unreadable = [] := by
  have h1 : load_rules (.rows (pre ++ bad :: post))
      = pre.filterMap parseRow ++ post.filterMap parseRow := by
    show (pre ++ bad :: post).filterMap parseRow = _
    rw [List.filterMap_append, List.filterMap_cons_none (parseRow_none_of_short hbad)]
  refine ⟨h1, ?_, rfl, rfl⟩
  rw [h1, List.length_append, filterMap_parseRow_length hpre, filterMap_parseRow_length hpost]

/-- Claim C7, witness: one malformed record between two well-formed ones. -/
theorem claim7_lenient_load_witness :
    load_rules (.rows [["allow", "/a"], ["deny"], ["deny", "/b", "admin"]])
        = load_rules (.rows [["allow", "/a"]]) ++ load_rules (.rows [["deny", "/b", "admin"]])
    ∧ (load_rules (.rows [["allow", "/a"], ["deny"], ["deny", "/b", "admin"]])).length = 1 + 1
    ∧ load_rules .missing = [] ∧ load_rules .unreadable = [] :=
  claim7_lenient_load [["allow", "/a"]] [["deny", "/b", "admin"]] ["deny"]
    (by decide) (by decide) (by decide)

/-! ## Helper lemmas about role normalization -/

/-- Membership through sorted insertion. -/
theorem mem_insertSorted {a x : String} {l : List String} :
    a ∈ insertSorted x l ↔ a = x ∨ a ∈ l := by
  induction l with
  | nil => simp [insertSorted]
  | cons y ys ih =>
    by_cases h : strLe x y
    · simp [insertSorted, h]
    · simp [insertSorted, h, ih, List.mem_cons]
      tauto

/-- Sorting preserves membership. -/
theorem mem_sortStrings {a : String} {l : List String} :
    a ∈ sortStrings l ↔ a ∈ l := by
  induction l with
  | nil => simp [sortStrings]
  | cons x xs ih => simp [sortStrings, mem_insertSorted, ih]

/-- The inserted element is a member. -/
theorem mem_setInsert_self (x : String) (l : List String) : x ∈ setInsert x l := by
  unfold setInsert
  split
  · next h => exact List.elem_iff.mp h
  · exact List.mem_cons_self _ _

/-- Insertion preserves membership. -/
theorem mem_setInsert_of_mem {a : String} (x : String) {l : List String} (h : a ∈ l) :
    a ∈ setInsert x l := by
  unfold setInsert
  split
  · exact h
  · exact List.mem_cons_of_mem _ h

/-- The role `public` is always among the normalized tokens. -/
theorem normalizeRoleTokens_public (roles : String) (email : Option String)
    (admin_email : String) : "public" ∈ normalizeRoleTokens roles email admin_email := by
  unfold normalizeRoleTokens
  rw [mem_sortStrings]
  by_cases hadm : emailIsAdmin email admin_email
  · simp only [hadm, if_true]
    exact mem_setInsert_of_mem _ (mem_setInsert_self _ _)
  · simp only [hadm, Bool.false_eq_true, if_false]
    exact mem_setInsert_self _ _

/-- The role `admin` is among the normalized tokens when the resolved email
is the administrator email. -/
theorem normalizeRoleTokens_admin (roles : String) (email : Option String)
    (admin_email : String) (h : emailIsAdmin email admin_email = true) :
    "admin" ∈ normalizeRoleTokens roles email admin_email := by
  unfold normalizeRoleTokens
  rw [mem_sortStrings]
  simp only [h, if_true]
  exact mem_setInsert_self _ _

/-- Claim C8, counterexample: resolving a credential whose stored role
string is `public,Protected` returns the role string `Protected,public` —
the token `Protected` is returned as stored, not lower-cased. -/
theorem claim8_role_normalization_cex :
    (verify_user envMixedCase 0 (some "tok") []).map (fun t => t.1.roles) = .ok "Protected,public"
    ∧ "Protected" ∈ pySplit ',' "Protected,public"
    ∧ pyLower "Protected" ≠ "Protected" := by
  refine ⟨by rfl, by decide, by decide⟩

/-- Claim C8 (amended): for every credential the provider resolves
successfully (on a cache miss), the role string returned by `verify_user`
is the comma-join of a normalized token set: tokens are stripped — not
lower-cased — `public` is always a member, and `admin` is a member whenever
the resolved email equals the configured administrator email. -/
theorem claim8_role_normalization (env : AuthEnv) (now : Nat) (sc : String)
    (session : List (String × CacheEntry)) (u0 : UserBase)
    (hsc : ¬ pyStrip sc = "")
    (hmiss : storeGet session (cacheKey env sc) = none)
    (hvc : verify_cookie env sc = .ok u0) :
    ∃ u s', verify_user env now (some sc) session = .ok (u, s', true)
      ∧ u.roles = joinSep "," (normalizeRoleTokens u0.roles u0.email env.admin_email)
      ∧ "public" ∈ normalizeRoleTokens u0.roles u0.email env.admin_email
      ∧ (u0.email = some env.admin_email →
          "admin" ∈ normalizeRoleTokens u0.roles u0.email env.admin_email) := by
  refine ⟨{ u0 with roles := joinSep "," (normalizeRoleTokens u0.roles u0.email env.admin_email) },
    storeSet session (cacheKey env sc)
      { user := { u0 with roles := joinSep "," (normalizeRoleTokens u0.roles u0.email env.admin_email) }
        cached_at := now }, ?_, rfl, normalizeRoleTokens_public _ _ _, ?_⟩
  · show verify_user env now (some sc) session = _
    rw [verify_user, if_neg hsc, hmiss, resolveFresh, hvc]
  · intro h
    exact normalizeRoleTokens_admin _ _ _ (by simp [emailIsAdmin, h])

/-- Claim C8, witness: the amended statement evaluated for a first login of
the configured administrator. -/
theorem claim8_role_normalization_witness :
    ∃ u s', verify_user envAdminMatch 5 (some "tok") [] = .ok (u, s', true)
      ∧ u.roles = joinSep ","
          (normalizeRoleTokens adminUser0.roles adminUser0.email envAdminMatch.admin_email)
      ∧ "public" ∈ normalizeRoleTokens adminUser0.roles adminUser0.email envAdminMatch.admin_email
      ∧ (adminUser0.email = some envAdminMatch.admin_email →
          "admin" ∈ normalizeRoleTokens adminUser0.roles adminUser0.email envAdminMatch.admin_email) :=
  claim8_role_normalization envAdminMatch 5 "tok" [] adminUser0 (by decide) (by rfl) (by rfl)

/-- A freshly written cache entry is found by its key. -/
theorem storeGet_storeSet_self (s : List (String × CacheEntry)) (k : String) (v : CacheEntry) :
    storeGet (storeSet s k v) k = some v := by
  simp [storeGet, storeSet, List.find?]

/-- Claim C9: resolving the same credential a second time within the TTL
window returns exactly the cached identity (hence an identical role set),
leaves the session store untouched, and does not contact the identity
provider (the returned flag is `false`). -/
theorem claim9_cache_hit_idempotence (env : AuthEnv) (now1 now2 : Nat) (sc : String)
    (s0 : List (String × CacheEntry)) (u1 : UserBase)
    (s1 : List (String × CacheEntry)) (b1 : Bool)
    (hmiss : storeGet s0 (cacheKey env sc) = none)
    (h1 : verify_user env now1 (some sc) s0 = .ok (u1, s1, b1))
    (hwin : now2 - now1 < cacheValidMinutes) :
    verify_user env now2 (some sc) s1 = .ok (u1, s1, false) := by
  by_cases hsc : pyStrip sc = ""
  · rw [verify_user, if_pos hsc] at h1
    simp only [Except.ok.injEq, Prod.mk.injEq] at h1
    obtain ⟨hu, hs, -⟩ := h1
    subst hs
    rw [verify_user, if_pos hsc, hu]
  · rw [verify_user, if_neg hsc, hmiss, resolveFresh] at h1
    cases hvc : verify_cookie env sc with
    | error c => rw [hvc] at h1; simp at h1
    | ok u0 =>
      rw [hvc] at h1
      simp only [Except.ok.injEq, Prod.mk.injEq] at h1
      obtain ⟨hu, hs, -⟩ := h1
      subst hs
      rw [verify_user, if_neg hsc]
      simp [storeGet_storeSet_self, hwin, hu]

/-- Claim C9, witness: a second resolution forty minutes after the first
returns the cached identity unchanged without a provider round trip. -/
theorem claim9_cache_hit_idempotence_witness :
    verify_user envMixedCase 50 (some "tok") cachedMixedStore
      = .ok (cachedMixedUser, cachedMixedStore, false) :=
  claim9_cache_hit_idempotence envMixedCase 10 50 "tok" [] cachedMixedUser
    cachedMixedStore true (by rfl) (by rfl) (by decide)
